import Mathlib

/-!
Shallow embedding of the real-time voice pipeline of `src/pages/ChatInterface.jsx`.

The pure numeric helpers (`convertFloat32ToInt16`, `downsampleBuffer`,
`encodeWAV`) are translated directly from the source.  JavaScript numbers are
modelled as exact rationals (`ℚ`); `Math.round` is modelled by `jsRound`
(floor of x + 1/2, which is how JavaScript rounds halves toward positive
infinity), and storing a number into an `Int16Array` is modelled by `toInt16`
(truncation toward zero followed by wrap-around modulo 2^16, per the
ECMAScript `ToInt16` conversion).  `setUint16`/`setUint32` of `DataView` are
modelled by `u16le`/`u32le`, which keep only the low 16/32 bits, little
endian, per `ToUint16`/`ToUint32`.

The stateful session (WebSocket, media stream, audio context, worklet node,
the `recording` flag, and the two message callbacks) is modelled by a `World`
state record together with explicit state-transition functions
(`startVoiceRecording`, `stopVoiceRecording`) and an event-step relation
(`step` / `runEvents`) whose events are the asynchronous callbacks of the
source: socket open, socket message (text or binary), and the audio-worklet
port message delivering one captured frame.  The base64/JSON envelope built
by `int16ToBase64` is an injective encoding and is not expanded: outbound
frames carry the downsampled PCM payload itself.
-/

/-- JavaScript `Math.round`: floor of x + 1/2 (halves round toward +∞). -/
def jsRound (q : ℚ) : ℤ := ⌊q + 1/2⌋

/-- Truncation toward zero of a rational, as in ECMAScript `ToIntegerOrInfinity`. -/
def truncQ (q : ℚ) : ℤ := if 0 ≤ q then ⌊q⌋ else ⌈q⌉

/-- ECMAScript `ToInt16` as used when a number is stored into an `Int16Array`:
truncate toward zero, reduce modulo 2^16, reinterpret as a signed 16-bit value. -/
def toInt16 (q : ℚ) : ℤ :=
  let m := (truncQ q) % 65536
  if m < 32768 then m else m - 65536

/-- Embedding of `convertFloat32ToInt16` (ChatInterface.jsx lines 203-211):
clamp each sample to [-1, 1] with `Math.max`/`Math.min`, multiply by 0x8000
when negative and 0x7FFF otherwise, and store into an `Int16Array`. -/
def convertFloat32ToInt16 (buffer : List ℚ) : List ℤ :=
  buffer.map fun x =>
    let s := max (-1) (min 1 x)
    toInt16 (if s < 0 then s * 32768 else s * 32767)

/-- Modelled from the spec for comparison with `convertFloat32ToInt16`:
clamp each sample to [-1, 1], scale by 32767 when non-negative and by 32768
when negative, and round toward the nearest integer. -/
def quantizeSpec (buffer : List ℚ) : List ℤ :=
  buffer.map fun x =>
    let s := max (-1) (min 1 x)
    jsRound (if s < 0 then s * 32768 else s * 32767)

/-- Offset into the input buffer used by the downsampling loop of
`downsampleBuffer`: the loop variable `offsetBuffer` equals
`Math.round (offsetResult * sampleRateRatio)` at the start of every
iteration (it starts at 0 and is advanced to
`Math.round ((offsetResult + 1) * sampleRateRatio)`).  The conversion
`Int.toNat` is exact whenever the ratio is positive, which makes the
rounded value nonnegative. -/
def dsOffset (ratio : ℚ) (i : ℕ) : ℕ := (jsRound ((i : ℚ) * ratio)).toNat

/-- Embedding of the `while` loop of `downsampleBuffer` (ChatInterface.jsx
lines 226-236).  Each iteration averages the input samples with indices in
`[offsetBuffer, min nextOffsetBuffer buffer.length)`, multiplies the mean by
32767, rounds, clamps to the signed 16-bit range, and stores the value.  When
the block is empty the JavaScript source divides by zero, producing `NaN`,
and storing `NaN` into an `Int16Array` yields 0; the `count = 0` branch
mirrors that. -/
def dsLoop (buffer : List ℤ) (ratio : ℚ) (newLength : ℕ)
    (offsetResult offsetBuffer : ℕ) : List ℤ :=
  if h : offsetResult < newLength then
    let nextOffsetBuffer := dsOffset ratio (offsetResult + 1)
    let hi := min nextOffsetBuffer buffer.length
    let count := hi - offsetBuffer
    let accum := ((buffer.drop offsetBuffer).take count).sum
    let v : ℤ :=
      if count = 0 then 0
      else min 32767 (max (-32768) (jsRound (((accum : ℚ) / count) * 32767)))
    v :: dsLoop buffer ratio newLength (offsetResult + 1) nextOffsetBuffer
  else []
termination_by newLength - offsetResult
decreasing_by omega

/-- Result of `downsampleBuffer`: the returned buffer, plus whether the
configuration warning (`console.error`) was emitted. -/
structure DsResult where
  result : List ℤ
  warned : Bool
deriving DecidableEq

/-- Embedding of `downsampleBuffer` (ChatInterface.jsx lines 213-238):
returns the input unchanged when the rates are equal; returns the input
unchanged and warns when the requested rate is larger than the source rate;
otherwise computes `newLength = Math.round (length / (sampleRate /
outSampleRate))`, allocates the output, and runs the averaging loop. -/
def downsampleBuffer (buffer : List ℤ) (sampleRate outSampleRate : ℚ) : DsResult :=
  if outSampleRate = sampleRate then ⟨buffer, false⟩
  else if sampleRate < outSampleRate then ⟨buffer, true⟩
  else
    let ratio := sampleRate / outSampleRate
    let newLength := (jsRound ((buffer.length : ℚ) / ratio)).toNat
    ⟨dsLoop buffer ratio newLength 0 0, false⟩

/-- Little-endian bytes stored by `DataView.setUint16` (ECMAScript keeps only
the low 16 bits of the value). -/
def u16le (x : ℕ) : List ℕ := [x % 256, x / 256 % 256]

/-- Little-endian bytes stored by `DataView.setUint32` (ECMAScript keeps only
the low 32 bits of the value). -/
def u32le (x : ℕ) : List ℕ :=
  [x % 256, x / 256 % 256, x / 65536 % 256, x / 16777216 % 256]

/-- Little-endian bytes stored by `DataView.setInt16`: two-complement
representation of the low 16 bits. -/
def i16le (v : ℤ) : List ℕ := u16le (v % 65536).toNat

/-- Embedding of `encodeWAV` (ChatInterface.jsx lines 249-275) as the byte
sequence of the produced blob: a 44-byte RIFF/WAVE header (mono, 16-bit,
little endian, the given sample rate) followed by the samples. -/
def encodeWAV (samples : List ℤ) (sampleRate : ℕ) : List ℕ :=
  [0x52, 0x49, 0x46, 0x46] ++ u32le (36 + samples.length * 2) ++
  [0x57, 0x41, 0x56, 0x45] ++ [0x66, 0x6d, 0x74, 0x20] ++
  u32le 16 ++ u16le 1 ++ u16le 1 ++ u32le sampleRate ++ u32le (sampleRate * 2) ++
  u16le 2 ++ u16le 16 ++ [0x64, 0x61, 0x74, 0x61] ++ u32le (samples.length * 2) ++
  samples.flatMap i16le

/-- Value of the little-endian 32-bit field at the head of a byte sequence. -/
def decodeU32le : List ℕ → ℕ
  | b0 :: b1 :: b2 :: b3 :: _ => b0 + 256 * b1 + 65536 * b2 + 16777216 * b3
  | _ => 0

/-- Declared RIFF chunk size of an encoded WAV byte sequence (offset 4). -/
def wavRiffSizeField (bs : List ℕ) : ℕ := decodeU32le (bs.drop 4)

/-- Declared data subchunk size of an encoded WAV byte sequence (offset 40). -/
def wavDataSizeField (bs : List ℕ) : ℕ := decodeU32le (bs.drop 40)

/-- Ready state of a WebSocket (`WebSocket.readyState`). -/
inductive WsState where
  | connecting
  | opened
  | closing
  | closed
deriving DecidableEq

/-- Frames transmitted on a socket: the JSON setup handshake sent by
`ws.onopen`, and the realtime audio frame sent by the worklet callback.  The
base64/JSON envelope produced by `int16ToBase64` is an injective encoding of
the downsampled PCM payload, so frames are identified by the socket that
carries them and the payload itself. -/
inductive OutFrame where
  | setup (sid : ℕ)
  | audio (sid : ℕ) (pcm : List ℤ)
deriving DecidableEq

/-- Whether an outbound frame is a realtime audio frame. -/
def OutFrame.isAudio : OutFrame → Bool
  | .setup _ => false
  | .audio _ _ => true

/-- State of the voice session.  The four `Ref` fields model the module refs
`wsRef`, `mediaStreamRef`, `audioContextRef` and `workletNodeRef` as indices
into the lists of all resources created so far: `sockets` holds the ready
state of every WebSocket ever constructed, `streams` whether each media
stream has had its tracks stopped, `contexts` whether each audio context was
closed, and `nodes` whether each worklet node is still connected.  Resources
are never removed from the lists, which makes leaks observable.  `recording`
and `isThinking` model the React state flags, `sent` the frames transmitted
on the wire, and `played` the WAV blobs handed to `new Audio(...).play()`. -/
structure World where
  recording : Bool
  isThinking : Bool
  sockets : List WsState
  streams : List Bool
  contexts : List Bool
  nodes : List Bool
  wsRef : Option ℕ
  streamRef : Option ℕ
  ctxRef : Option ℕ
  nodeRef : Option ℕ
  sent : List OutFrame
  played : List (List ℕ)
deriving DecidableEq

/-- The world before any session activity: no resources, no refs, not
recording. -/
def initWorld : World :=
  { recording := false, isThinking := false
    sockets := [], streams := [], contexts := [], nodes := []
    wsRef := none, streamRef := none, ctxRef := none, nodeRef := none
    sent := [], played := [] }

/-- Ready state of the socket currently held by `wsRef`, if any. -/
def wsReadyState (w : World) : Option WsState :=
  w.wsRef.bind fun sid => w.sockets[sid]?

/-- Embedding of `startVoiceRecording` (ChatInterface.jsx lines 277-386), run
to completion: sets `recording`, constructs a new WebSocket (state
CONNECTING) and stores it in `wsRef`, acquires a new media stream, a new
audio context and a new worklet node, stores each in its ref, installs the
callbacks and connects the graph.  Every acquisition is unconditional: the
source contains no double-start guard, so each call allocates a fresh set of
resources and overwrites the refs to the previous ones. -/
def startVoiceRecording (w : World) : World :=
  let w1 := { w with recording := true, isThinking := false }
  let w2 := { w1 with sockets := w1.sockets ++ [WsState.connecting],
                      wsRef := some w1.sockets.length }
  let w3 := { w2 with streams := w2.streams ++ [false],
                      streamRef := some w2.streams.length }
  let w4 := { w3 with contexts := w3.contexts ++ [false],
                      ctxRef := some w3.contexts.length }
  { w4 with nodes := w4.nodes ++ [true], nodeRef := some w4.nodes.length }

/-- Teardown steps performed by `stopVoiceRecording`, in source order. -/
inductive StopAction where
  | disconnectNode
  | closeContext
  | stopTracks
  | closeSocket
deriving DecidableEq

/-- Transition of a WebSocket ready state under `close()`: a CONNECTING or
OPEN socket moves to CLOSING; `close()` on a CLOSING or CLOSED socket is a
no-op. -/
def wsClose : WsState → WsState
  | .connecting => .closing
  | .opened => .closing
  | s => s

/-- Embedding of `stopVoiceRecording` (ChatInterface.jsx lines 388-405):
clears `recording`, sets `isThinking`, then — each guarded by a null check on
its ref — disconnects the worklet node (nulling `workletNodeRef`), closes the
audio context, stops the media stream tracks, and closes the WebSocket (the
last three refs are not nulled by the source).  Returns the new world
together with the list of teardown actions performed, in order. -/
def stopVoiceRecording (w : World) : World × List StopAction :=
  let w0 := { w with recording := false, isThinking := true }
  let (w1, a1) :=
    match w0.nodeRef with
    | some nid => ({ w0 with nodes := w0.nodes.set nid false, nodeRef := none },
                   [StopAction.disconnectNode])
    | none => (w0, [])
  let (w2, a2) :=
    match w1.ctxRef with
    | some cid => ({ w1 with contexts := w1.contexts.set cid true },
                   [StopAction.closeContext])
    | none => (w1, [])
  let (w3, a3) :=
    match w2.streamRef with
    | some mid => ({ w2 with streams := w2.streams.set mid true },
                   [StopAction.stopTracks])
    | none => (w2, [])
  let (w4, a4) :=
    match w3.wsRef with
    | some sid => ({ w3 with sockets :=
                      w3.sockets.set sid (wsClose (w3.sockets.getD sid .closed)) },
                   [StopAction.closeSocket])
    | none => (w3, [])
  (w4, a1 ++ a2 ++ a3 ++ a4)

/-- Asynchronous callbacks of the session, deliverable in any order by the
event loop: `wsOpen sid` fires `ws.onopen` of socket `sid`; `wsText sid t`
fires `ws.onmessage` with a JSON text frame (`t` records whether it carries
response text); `wsBinary sid pcm` fires `ws.onmessage` with a binary audio
frame; `audioFrame samples rate` fires the worklet `port.onmessage` with one
captured float frame at the capture sample rate of its audio context. -/
inductive Event where
  | wsOpen (sid : ℕ)
  | wsText (sid : ℕ) (hasText : Bool)
  | wsBinary (sid : ℕ) (pcm : List ℤ)
  | audioFrame (samples : List ℚ) (rate : ℚ)

/-- One step of the event loop (the callbacks installed by
`startVoiceRecording`, ChatInterface.jsx lines 284-331 and 369-383).
`ws.onopen` marks its socket OPEN and sends the setup frame on that socket.
`ws.onmessage` has no liveness check: a text frame with response text clears
`isThinking`; a binary frame is decoded, wrapped with `encodeWAV` at 24000 Hz
and played unconditionally.  The worklet callback returns early unless
`recording` is set, converts the frame with `convertFloat32ToInt16` and
`downsampleBuffer` to 16000 Hz, and sends it only when `wsRef` holds a socket
whose ready state is OPEN; in every other state the frame is dropped and
nowhere retained. -/
def step (w : World) (e : Event) : World :=
  match e with
  | .wsOpen sid =>
      if w.sockets[sid]? = some WsState.connecting then
        { w with sockets := w.sockets.set sid WsState.opened,
                 sent := w.sent ++ [OutFrame.setup sid] }
      else w
  | .wsText _ hasText =>
      if hasText then { w with isThinking := false } else w
  | .wsBinary sid pcm =>
      if sid < w.sockets.length then
        { w with played := w.played ++ [encodeWAV pcm 24000] }
      else w
  | .audioFrame samples rate =>
      if ¬ w.recording then w
      else
        let int16Data := convertFloat32ToInt16 samples
        let downsampledData := (downsampleBuffer int16Data rate 16000).result
        match w.wsRef with
        | some sid =>
            if w.sockets[sid]? = some WsState.opened then
              { w with sent := w.sent ++ [OutFrame.audio sid downsampledData] }
            else w
        | none => w

/-- Folding a sequence of asynchronous callbacks over the world. -/
def runEvents (w : World) (evs : List Event) : World := evs.foldl step w

/-- Whether a socket is in a state that still carries or will carry traffic
(CONNECTING or OPEN). -/
def WsState.isActive : WsState → Bool
  | .connecting => true
  | .opened => true
  | _ => false

/-- Number of sockets created so far whose state is CONNECTING or OPEN. -/
def activeSockets (w : World) : ℕ := (w.sockets.filter WsState.isActive).length

/-- Number of worklet nodes still connected to the capture graph. -/
def connectedNodes (w : World) : ℕ := (w.nodes.filter id).length

/-- Number of media streams whose tracks were never stopped. -/
def liveStreams (w : World) : ℕ := (w.streams.filter (fun b => !b)).length

/-- Number of audio contexts not yet closed. -/
def openContexts (w : World) : ℕ := (w.contexts.filter (fun b => !b)).length

/-! Helper lemmas about the session model. -/

/-- Closing an already closing or closed socket changes nothing. -/
lemma wsClose_wsClose (s : WsState) : wsClose (wsClose s) = wsClose s := by
  cases s <;> rfl

/-- The event step never turns the recording flag back on (nothing but
`startVoiceRecording` sets it). -/
lemma step_recording (w : World) (e : Event) : (step w e).recording = w.recording := by
  cases e with
  | wsOpen sid => simp only [step]; split <;> rfl
  | wsText sid t => simp only [step]; split <;> rfl
  | wsBinary sid pcm => simp only [step]; split <;> rfl
  | audioFrame samples rate =>
      simp only [step]
      split
      · rfl
      · cases w.wsRef with
        | none => rfl
        | some sid =>
            by_cases hs : w.sockets[sid]? = some WsState.opened <;> simp [hs]

/-- While the recording flag is down, no event step appends an audio frame
to the wire (the worklet callback returns at its liveness check, and the
only other sender, `ws.onopen`, sends a setup frame). -/
lemma step_sent_filter (w : World) (e : Event) (h : w.recording = false) :
    ((step w e).sent.filter OutFrame.isAudio) = w.sent.filter OutFrame.isAudio := by
  cases e with
  | wsOpen sid =>
      simp only [step]; split
      · simp [List.filter_append, OutFrame.isAudio]
      · rfl
  | wsText sid t => simp only [step]; split <;> rfl
  | wsBinary sid pcm => simp only [step]; split <;> rfl
  | audioFrame samples rate => simp only [step]; simp [h]

/-- Audio frames on the wire are unchanged by any sequence of callbacks run
from a world whose recording flag is down. -/
lemma runEvents_sent_filter (evs : List Event) (w : World) (h : w.recording = false) :
    ((runEvents w evs).sent.filter OutFrame.isAudio) = w.sent.filter OutFrame.isAudio := by
  induction evs generalizing w with
  | nil => rfl
  | cons e evs ih =>
      show ((runEvents (step w e) evs).sent.filter OutFrame.isAudio) = _
      rw [ih (step w e) (by rw [step_recording]; exact h), step_sent_filter w e h]

/-- Stopping always lowers the recording flag. -/
lemma stop_recording (w : World) : (stopVoiceRecording w).1.recording = false := by
  unfold stopVoiceRecording
  cases w.nodeRef <;> cases w.ctxRef <;> cases w.streamRef <;> cases w.wsRef <;> rfl

/-- Setting a socket to its closed-transition twice is the same as doing it
once (second `close()` is a no-op). -/
lemma set_wsClose_idem (l : List WsState) (sid : ℕ) :
    l.set sid
      (wsClose ((l.set sid (wsClose (l[sid]?.getD WsState.closed)))[sid]?.getD WsState.closed))
    = l.set sid (wsClose (l[sid]?.getD WsState.closed)) := by
  by_cases h : sid < l.length
  · congr 1
    rw [List.getElem?_set]
    simp [h, wsClose_wsClose]
  · have h0 : l[sid]? = none := List.getElem?_eq_none (by omega)
    have h1 : l.set sid (wsClose (l[sid]?.getD WsState.closed)) = l :=
      List.set_eq_of_length_le (by omega)
    rw [h1, h0]
    exact List.set_eq_of_length_le (by omega)

/-- A second `stopVoiceRecording` leaves the world exactly as the first one
left it. -/
lemma stop_idem (w : World) :
    (stopVoiceRecording (stopVoiceRecording w).1).1 = (stopVoiceRecording w).1 := by
  unfold stopVoiceRecording
  rcases hn : w.nodeRef with _ | nid <;> rcases hc : w.ctxRef with _ | cid <;>
    rcases hs : w.streamRef with _ | mid <;> rcases hw : w.wsRef with _ | sid <;>
    simp [hn, hc, hs, hw, List.set_set, set_wsClose_idem]

/-! Helper lemmas about the numeric converters. -/

/-- Rounding a nonnegative rational gives a nonnegative integer. -/
lemma jsRound_nonneg {q : ℚ} (h : 0 ≤ q) : 0 ≤ jsRound q :=
  Int.le_floor.mpr (by push_cast; linarith)

/-- Rounding an integer value is the identity. -/
lemma jsRound_intCast (n : ℤ) : jsRound ((n : ℚ)) = n := by
  unfold jsRound
  rw [add_comm, Int.floor_add_int]
  norm_num

/-- The downsampling loop emits exactly one sample per remaining output
index, regardless of the offsets. -/
lemma dsLoop_length (buffer : List ℤ) (ratio : ℚ) (nl : ℕ) :
    ∀ fuel i ob, nl ≤ i + fuel → (dsLoop buffer ratio nl i ob).length = nl - i := by
  intro fuel
  induction fuel with
  | zero =>
      intro i ob h
      rw [dsLoop, dif_neg (by omega)]
      simp
      omega
  | succ fuel ih =>
      intro i ob h
      by_cases hi : i < nl
      · rw [dsLoop, dif_pos hi]
        simp only [List.length_cons, ih (i + 1) _ (by omega)]
        omega
      · rw [dsLoop, dif_neg hi]
        simp
        omega

/-- With a strictly smaller requested rate, `downsampleBuffer` takes its
averaging branch. -/
lemma downsampleBuffer_eq (buffer : List ℤ) (srcR outR : ℚ)
    (h1 : outR < srcR) :
    downsampleBuffer buffer srcR outR =
      ⟨dsLoop buffer (srcR / outR)
          ((jsRound ((buffer.length : ℚ) / (srcR / outR))).toNat) 0 0, false⟩ := by
  unfold downsampleBuffer
  rw [if_neg (ne_of_lt h1), if_neg (by exact fun hc => absurd h1 (asymm hc))]

/-- Length of the averaged output buffer, as an integer. -/
lemma downsample_result_length (buffer : List ℤ) (srcR outR : ℚ)
    (h0 : 0 < outR) (h1 : outR < srcR) :
    ((downsampleBuffer buffer srcR outR).result.length : ℤ) =
      jsRound ((buffer.length : ℚ) / (srcR / outR)) := by
  rw [downsampleBuffer_eq buffer srcR outR h1]
  have hr0 : 0 < srcR / outR := div_pos (h0.trans h1) h0
  have hq : 0 ≤ (buffer.length : ℚ) / (srcR / outR) :=
    div_nonneg (by positivity) hr0.le
  rw [show (⟨dsLoop buffer (srcR / outR)
        ((jsRound ((buffer.length : ℚ) / (srcR / outR))).toNat) 0 0, false⟩ : DsResult).result
      = dsLoop buffer (srcR / outR)
        ((jsRound ((buffer.length : ℚ) / (srcR / outR))).toNat) 0 0 from rfl]
  rw [dsLoop_length buffer (srcR / outR) _
        ((jsRound ((buffer.length : ℚ) / (srcR / outR))).toNat) 0 0 (by omega)]
  rw [Nat.sub_zero]
  exact Int.toNat_of_nonneg (jsRound_nonneg hq)

/-- Core arithmetic of the loop offsets: for a ratio above 1 and an output
index below the rounded output length, the rounded block start lies inside
the input and the next block start is strictly larger. -/
lemma dsOffset_bounds (len : ℕ) (ratio : ℚ) (hr : 1 < ratio) (i : ℕ)
    (hi : i < (jsRound ((len : ℚ) / ratio)).toNat) :
    (jsRound ((i : ℚ) * ratio) < (len : ℤ)) ∧
    (0 ≤ jsRound ((i : ℚ) * ratio)) ∧
    (jsRound ((i : ℚ) * ratio) < jsRound (((i : ℚ) + 1) * ratio)) ∧
    (0 ≤ jsRound (((i : ℚ) + 1) * ratio)) := by
  have hr0 : (0 : ℚ) < ratio := lt_trans one_pos hr
  have hi' : ((i : ℤ)) < jsRound ((len : ℚ) / ratio) := Int.lt_toNat.mp hi
  have h2 : ((i : ℚ)) + 1 ≤ (len : ℚ) / ratio + 1 / 2 := by
    have hle : ((i : ℤ)) + 1 ≤ ⌊(len : ℚ) / ratio + 1 / 2⌋ := by
      unfold jsRound at hi'
      omega
    have := Int.le_floor.mp hle
    push_cast at this
    linarith
  have h3 : (i : ℚ) * ratio ≤ (len : ℚ) - ratio / 2 := by
    have h2' : (i : ℚ) ≤ (len : ℚ) / ratio - 1 / 2 := by linarith
    calc (i : ℚ) * ratio ≤ ((len : ℚ) / ratio - 1 / 2) * ratio :=
          mul_le_mul_of_nonneg_right h2' hr0.le
      _ = (len : ℚ) - ratio / 2 := by
          rw [sub_mul, div_mul_cancel₀ _ (ne_of_gt hr0)]
          ring
  refine ⟨?_, ?_, ?_, ?_⟩
  · apply Int.floor_lt.mpr
    push_cast
    linarith
  · exact jsRound_nonneg (by positivity)
  · unfold jsRound
    have hstep : (i : ℚ) * ratio + 1 / 2 + 1 ≤ ((i : ℚ) + 1) * ratio + 1 / 2 := by
      ring_nf
      nlinarith
    calc ⌊(i : ℚ) * ratio + 1 / 2⌋ < ⌊(i : ℚ) * ratio + 1 / 2⌋ + 1 := lt_add_one _
      _ = ⌊(i : ℚ) * ratio + 1 / 2 + 1⌋ := (Int.floor_add_one _).symm
      _ ≤ ⌊((i : ℚ) + 1) * ratio + 1 / 2⌋ := Int.floor_le_floor hstep
  · apply jsRound_nonneg
    positivity

/-- At ratio 3 the loop offsets are exact multiples of 3. -/
lemma dsOffset_three (i : ℕ) : dsOffset 3 i = 3 * i := by
  unfold dsOffset
  rw [show ((i : ℚ) * 3) = (((3 * i : ℕ) : ℤ) : ℚ) by push_cast; ring, jsRound_intCast,
    Int.toNat_natCast]

/-- Running the averaging loop at ratio 3 over a constant buffer produces
the clamped, rounded value of 32767 times the constant in every slot. -/
lemma dsLoop_replicate3 (v : ℤ) (m : ℕ) :
    ∀ fuel k, m ≤ k + fuel →
      dsLoop (List.replicate (3 * m) v) 3 m k (3 * k)
        = List.replicate (m - k) (min 32767 (max (-32768) (jsRound ((v : ℚ) * 32767)))) := by
  intro fuel
  induction fuel with
  | zero =>
      intro k h1
      rw [dsLoop, dif_neg (by omega)]
      rw [show m - k = 0 by omega]
      rfl
  | succ fuel ih =>
      intro k h1
      by_cases hk : k < m
      · rw [dsLoop, dif_pos hk]
        simp only [dsOffset_three, List.length_replicate]
        have hmin : min (3 * (k + 1)) (3 * m) = 3 * (k + 1) := by omega
        have hcount : 3 * (k + 1) - 3 * k = 3 := by omega
        rw [hmin, hcount, List.drop_replicate, List.take_replicate]
        have htake : min 3 (3 * m - 3 * k) = 3 := by omega
        rw [htake, List.sum_replicate]
        have hsm : ((3 : ℕ) • v : ℤ) = 3 * v := by
          rw [nsmul_eq_mul]
          norm_num
        have hval : (((3 : ℕ) • v : ℤ) : ℚ) / ((3 : ℕ) : ℚ) * 32767 = (v : ℚ) * 32767 := by
          rw [hsm]
          push_cast
          rw [mul_div_cancel_left₀ _ (by norm_num : (3 : ℚ) ≠ 0)]
        rw [if_neg (by omega : ¬(3 = 0)), hval, ih (k + 1) (by omega)]
        rw [show m - k = (m - (k + 1)) + 1 by omega, List.replicate_succ]
      · rw [dsLoop, dif_neg hk]
        rw [show m - k = 0 by omega]
        rfl

/-- Truncation of a rational in the signed 16-bit range stays in that range. -/
lemma truncQ_bounds {q : ℚ} (hlo : -32768 ≤ q) (hhi : q ≤ 32767) :
    -32768 ≤ truncQ q ∧ truncQ q ≤ 32767 := by
  unfold truncQ
  split
  · constructor
    · have h0 : (0 : ℤ) ≤ ⌊q⌋ := Int.le_floor.mpr (by push_cast; linarith)
      omega
    · exact Int.floor_le_floor hhi |>.trans_eq (by norm_num [Int.floor_intCast])
  · constructor
    · have : ((-32768 : ℤ) : ℚ) ≤ q := by push_cast; linarith
      have h1 : ((-32768 : ℤ) : ℚ) ≤ (⌈q⌉ : ℚ) := this.trans (Int.le_ceil q)
      exact_mod_cast h1
    · have h2 : ⌈q⌉ ≤ ⌈(0 : ℚ)⌉ := Int.ceil_le_ceil (by linarith)
      simp at h2
      omega

/-- In the signed 16-bit range the Int16Array store performs no wrap-around:
it is plain truncation toward zero. -/
lemma toInt16_eq_truncQ {q : ℚ} (hlo : -32768 ≤ q) (hhi : q ≤ 32767) :
    toInt16 q = truncQ q := by
  have hb := truncQ_bounds hlo hhi
  unfold toInt16
  dsimp only
  omega

/-- After clamping to [-1, 1], the scaled sample lies in the signed 16-bit
range. -/
lemma clamped_scale_bounds (x : ℚ) :
    -32768 ≤ (if max (-1) (min 1 x) < 0 then max (-1) (min 1 x) * 32768
              else max (-1) (min 1 x) * 32767) ∧
    (if max (-1) (min 1 x) < 0 then max (-1) (min 1 x) * 32768
     else max (-1) (min 1 x) * 32767) ≤ 32767 := by
  have hs1 : -1 ≤ max (-1) (min 1 x) := le_max_left _ _
  have hs2 : max (-1) (min 1 x) ≤ 1 := max_le (by norm_num) (min_le_left _ _)
  split
  · rename_i hneg
    constructor <;> nlinarith
  · rename_i hpos
    push_neg at hpos
    constructor <;> nlinarith

/-- Every encoded sample occupies two bytes. -/
lemma i16le_length (v : ℤ) : (i16le v).length = 2 := rfl

/-- Reading back a little-endian 32-bit field recovers the stored value
modulo 2 to the 32. -/
lemma decodeU32le_u32le_append (x : ℕ) (t : List ℕ) :
    decodeU32le (u32le x ++ t) = x % 4294967296 := by
  show x % 256 + 256 * (x / 256 % 256) + 65536 * (x / 65536 % 256) +
      16777216 * (x / 16777216 % 256) = x % 4294967296
  omega

/-- Total byte length of the produced WAV container. -/
lemma encodeWAV_length (s : List ℤ) (r : ℕ) :
    (encodeWAV s r).length = 44 + 2 * s.length := by
  unfold encodeWAV u32le u16le
  simp only [List.length_append, List.length_cons, List.length_nil, List.length_flatMap]
  have hmap : s.map (List.length ∘ i16le) = s.map (fun _ => 2) :=
    List.map_congr_left fun v _ => i16le_length v
  rw [hmap, List.map_const', List.sum_replicate, smul_eq_mul]
  omega

/-- The WAV byte sequence split exactly at the data-size field (offset 40). -/
lemma encodeWAV_data_split (s : List ℤ) (r : ℕ) :
    encodeWAV s r =
      ([0x52, 0x49, 0x46, 0x46] ++ (u32le (36 + s.length * 2) ++
       ([0x57, 0x41, 0x56, 0x45] ++ ([0x66, 0x6d, 0x74, 0x20] ++
       (u32le 16 ++ (u16le 1 ++ (u16le 1 ++ (u32le r ++ (u32le (r * 2) ++
       (u16le 2 ++ (u16le 16 ++ [0x64, 0x61, 0x74, 0x61]))))))))))) ++
      (u32le (s.length * 2) ++ s.flatMap i16le) := by
  unfold encodeWAV
  simp [List.append_assoc]

/-- The declared data subchunk size is the low 32 bits of twice the sample
count. -/
lemma wavDataSizeField_encodeWAV (s : List ℤ) (r : ℕ) :
    wavDataSizeField (encodeWAV s r) = (s.length * 2) % 4294967296 := by
  unfold wavDataSizeField
  rw [encodeWAV_data_split, List.drop_left' (by simp [u32le, u16le]),
    decodeU32le_u32le_append]

/-- The declared RIFF chunk size is the low 32 bits of 36 plus twice the
sample count. -/
lemma wavRiffSizeField_encodeWAV (s : List ℤ) (r : ℕ) :
    wavRiffSizeField (encodeWAV s r) = (36 + s.length * 2) % 4294967296 := by
  unfold wavRiffSizeField
  rw [encodeWAV_data_split]
  rw [show ([0x52, 0x49, 0x46, 0x46] ++ (u32le (36 + s.length * 2) ++
       ([0x57, 0x41, 0x56, 0x45] ++ ([0x66, 0x6d, 0x74, 0x20] ++
       (u32le 16 ++ (u16le 1 ++ (u16le 1 ++ (u32le r ++ (u32le (r * 2) ++
       (u16le 2 ++ (u16le 16 ++ [0x64, 0x61, 0x74, 0x61]))))))))))) ++
      (u32le (s.length * 2) ++ s.flatMap i16le)
    = [0x52, 0x49, 0x46, 0x46] ++ (u32le (36 + s.length * 2) ++
       (([0x57, 0x41, 0x56, 0x45] ++ ([0x66, 0x6d, 0x74, 0x20] ++
       (u32le 16 ++ (u16le 1 ++ (u16le 1 ++ (u32le r ++ (u32le (r * 2) ++
       (u16le 2 ++ (u16le 16 ++ [0x64, 0x61, 0x74, 0x61]))))))))) ++
      (u32le (s.length * 2) ++ s.flatMap i16le))) by simp [List.append_assoc]]
  rw [List.drop_left' (by simp), decodeU32le_u32le_append]

/-! Claim theorems. -/

/-- Claim C1, counterexample: after `stopVoiceRecording` returns, an
in-flight inbound binary frame delivered to `ws.onmessage` still triggers
playback — the handler has no liveness check — contradicting the claim that
no inbound frame triggers playback after stop. -/
theorem claim_C1_counterexample :
    (stopVoiceRecording (startVoiceRecording initWorld)).1.played = [] ∧
    (step (stopVoiceRecording (startVoiceRecording initWorld)).1
        (Event.wsBinary 0 [100])).played = [encodeWAV [100] 24000] ∧
    encodeWAV [100] 24000 ≠ [] := by
  refine ⟨by decide, by decide, by decide⟩

/-- Claim C1, amended: after `stopVoiceRecording` returns, no further
outbound audio frames are sent on the transport, for every interleaving of
in-flight asynchronous callbacks resolving after the stop — the worklet
callback checks the recording flag at entry and the socket is no longer
open.  The inbound half of the original claim fails: playback is not
guarded (see the counterexample). -/
theorem claim_C1_amended (w : World) (evs : List Event) :
    ((runEvents (stopVoiceRecording w).1 evs).sent.filter OutFrame.isAudio) =
      ((stopVoiceRecording w).1.sent.filter OutFrame.isAudio) :=
  runEvents_sent_filter evs _ (stop_recording w)

/-- Claim C2, code evaluation at the failing input: downsampling a constant
buffer of 4800 samples all equal to 1 from 48000 to 16000 yields 1600
samples, but each equals 32767 rather than the input value 1, because the
source multiplies the block mean — already a 16-bit sample — by 32767 again
and clamps. -/
theorem claim_C2_code_evaluation :
    (downsampleBuffer (List.replicate 4800 (1 : ℤ)) 48000 16000).result
      = List.replicate 1600 32767 ∧ (32767 : ℤ) ≠ 1 := by
  refine ⟨?_, by decide⟩
  rw [downsampleBuffer_eq _ _ _ (by norm_num)]
  have hratio : (48000 : ℚ) / 16000 = 3 := by norm_num
  rw [hratio]
  simp only [List.length_replicate]
  rw [show ((4800 : ℕ) : ℚ) / 3 = ((1600 : ℤ) : ℚ) by norm_num]
  rw [jsRound_intCast]
  rw [show ((1600 : ℤ)).toNat = 1600 from rfl]
  show dsLoop (List.replicate 4800 1) 3 1600 0 0 = _
  have hc : jsRound (((1 : ℤ) : ℚ) * 32767) = 32767 := by
    unfold jsRound
    norm_num
  have h := dsLoop_replicate3 1 1600 1600 0 (by omega)
  rw [hc] at h
  norm_num at h
  exact h

/-- Claim C3, counterexample: on the sample 1/2 the source produces 16383
(truncation of 16383.5 toward zero by the Int16Array store), while the
claimed round-to-nearest mapping produces 16384. -/
theorem claim_C3_counterexample :
    convertFloat32ToInt16 [(1 : ℚ) / 2] = [16383] ∧
    quantizeSpec [(1 : ℚ) / 2] = [16384] ∧ (16383 : ℤ) ≠ 16384 := by
  have hmin : min (1 : ℚ) (1 / 2) = 1 / 2 := min_eq_right (by norm_num)
  have hmax : max (-1 : ℚ) (1 / 2) = 1 / 2 := max_eq_right (by norm_num)
  have hlt : ¬((1 : ℚ) / 2 < 0) := by norm_num
  refine ⟨?_, ?_, by decide⟩
  · unfold convertFloat32ToInt16
    simp only [List.map, hmin, hmax, if_neg hlt]
    unfold toInt16 truncQ
    norm_num
  · unfold quantizeSpec
    simp only [List.map, hmin, hmax, if_neg hlt]
    unfold jsRound
    norm_num

/-- Claim C3, amended: `convertFloat32ToInt16` maps each sample by clamping
it to [-1, 1], scaling the clamped value by 32767 when non-negative and by
32768 when negative, and then truncating toward zero (not rounding to the
nearest integer); the function is pure and deterministic. -/
theorem claim_C3_amended (buffer : List ℚ) :
    convertFloat32ToInt16 buffer =
      buffer.map fun x =>
        let s := max (-1) (min 1 x)
        truncQ (if s < 0 then s * 32768 else s * 32767) := by
  unfold convertFloat32ToInt16
  apply List.map_congr_left
  intro x _
  exact toInt16_eq_truncQ (clamped_scale_bounds x).1 (clamped_scale_bounds x).2

/-- Claim C4, counterexample: two consecutive `startVoiceRecording` calls
without an intervening stop leave two active sockets, two connected worklet
nodes, two live media streams and two open audio contexts — not exactly
one — since the source has no double-start guard. -/
theorem claim_C4_counterexample :
    activeSockets (startVoiceRecording (startVoiceRecording initWorld)) = 2 ∧
    connectedNodes (startVoiceRecording (startVoiceRecording initWorld)) = 2 ∧
    liveStreams (startVoiceRecording (startVoiceRecording initWorld)) = 2 ∧
    openContexts (startVoiceRecording (startVoiceRecording initWorld)) = 2 ∧
    activeSockets (startVoiceRecording (startVoiceRecording initWorld)) ≠ 1 := by
  decide

/-- Claim C4, amended: a second `startVoiceRecording` call creates a second
socket, stream, context and node and overwrites the refs to the first set,
which is leaked: a subsequent `stopVoiceRecording` releases only the second
set, leaving the first socket still active and the first stream, context and
node unreleased. -/
theorem claim_C4_amended :
    (startVoiceRecording (startVoiceRecording initWorld)).sockets =
      [WsState.connecting, WsState.connecting] ∧
    (startVoiceRecording (startVoiceRecording initWorld)).wsRef = some 1 ∧
    (stopVoiceRecording (startVoiceRecording (startVoiceRecording initWorld))).1.sockets =
      [WsState.connecting, WsState.closing] ∧
    (stopVoiceRecording (startVoiceRecording (startVoiceRecording initWorld))).1.streams =
      [false, true] ∧
    (stopVoiceRecording (startVoiceRecording (startVoiceRecording initWorld))).1.contexts =
      [false, true] ∧
    (stopVoiceRecording (startVoiceRecording (startVoiceRecording initWorld))).1.nodes =
      [true, false] ∧
    activeSockets
      (stopVoiceRecording (startVoiceRecording (startVoiceRecording initWorld))).1 = 1 := by
  decide

/-- Claim C5, counterexample: on a fully initialized session the teardown
order of `stopVoiceRecording` is disconnect graph, close audio context, stop
media tracks, close socket — not the claimed disconnect graph, stop media
tracks, close audio context, close socket. -/
theorem claim_C5_counterexample :
    (stopVoiceRecording (startVoiceRecording initWorld)).2 =
      [StopAction.disconnectNode, StopAction.closeContext,
       StopAction.stopTracks, StopAction.closeSocket] ∧
    [StopAction.disconnectNode, StopAction.closeContext,
       StopAction.stopTracks, StopAction.closeSocket] ≠
      [StopAction.disconnectNode, StopAction.stopTracks,
       StopAction.closeContext, StopAction.closeSocket] := by
  exact ⟨by decide, by decide⟩

/-- Claim C5, amended: `stopVoiceRecording` releases resources in the order
disconnect the capture graph, close the audio processing context, stop all
media tracks, close the transport session; each step is skipped when its
resource was never created, and calling stop again (or before start) leaves
the state unchanged and never throws (the embedding is a total function). -/
theorem claim_C5_amended (w : World) :
    (stopVoiceRecording w).2 =
      (if w.nodeRef.isSome then [StopAction.disconnectNode] else []) ++
      (if w.ctxRef.isSome then [StopAction.closeContext] else []) ++
      (if w.streamRef.isSome then [StopAction.stopTracks] else []) ++
      (if w.wsRef.isSome then [StopAction.closeSocket] else []) ∧
    (stopVoiceRecording (stopVoiceRecording w).1).1 = (stopVoiceRecording w).1 ∧
    (stopVoiceRecording w).1.recording = false := by
  refine ⟨?_, stop_idem w, stop_recording w⟩
  unfold stopVoiceRecording
  rcases hn : w.nodeRef with _ | nid <;> rcases hc : w.ctxRef with _ | cid <;>
    rcases hs : w.streamRef with _ | mid <;> rcases hw : w.wsRef with _ | sid <;>
    simp [hn, hc, hs, hw]

/-- Claim C6: an outbound audio frame is sent only while the referenced
socket is OPEN; a frame arriving in any other state leaves the world
unchanged — it is dropped, not queued — so it is never transmitted later,
whatever events (including the socket opening) follow. -/
theorem claim_C6 (w : World) (samples : List ℚ) (rate : ℚ)
    (h : wsReadyState w ≠ some WsState.opened) :
    step w (Event.audioFrame samples rate) = w ∧
    ∀ evs, runEvents (step w (Event.audioFrame samples rate)) evs = runEvents w evs := by
  have hstep : step w (Event.audioFrame samples rate) = w := by
    simp only [step]
    split
    · rfl
    · cases hw : w.wsRef with
      | none => rfl
      | some sid =>
          have hs : w.sockets[sid]? ≠ some WsState.opened := by
            intro hc
            exact h (by simp [wsReadyState, hw, hc])
          simp [hs]
  exact ⟨hstep, fun evs => by rw [hstep]⟩

/-- Claim C6, witness: directly after `startVoiceRecording` the socket is
CONNECTING, and a captured audio frame is dropped. -/
theorem claim_C6_witness :
    wsReadyState (startVoiceRecording initWorld) ≠ some WsState.opened ∧
    step (startVoiceRecording initWorld) (Event.audioFrame [1/2] 48000)
      = startVoiceRecording initWorld :=
  ⟨by decide, (claim_C6 (startVoiceRecording initWorld) [1/2] 48000 (by decide)).1⟩

/-- Claim C7: for a positive requested rate strictly below the source rate,
the output buffer length equals the rounded quotient of the input length by
the rate ratio. -/
theorem claim_C7 (buffer : List ℤ) (srcR outR : ℚ)
    (h0 : 0 < outR) (h1 : outR < srcR) :
    ((downsampleBuffer buffer srcR outR).result.length : ℤ) =
      jsRound ((buffer.length : ℚ) / (srcR / outR)) :=
  downsample_result_length buffer srcR outR h0 h1

/-- Claim C7, witness: a 3-sample buffer from 48000 to 16000 has output
length round of 1. -/
theorem claim_C7_witness :
    (0 : ℚ) < 16000 ∧ (16000 : ℚ) < 48000 ∧
    ((downsampleBuffer [1, 2, 3] 48000 16000).result.length : ℤ) =
      jsRound ((([1, 2, 3] : List ℤ).length : ℚ) / (48000 / 16000)) :=
  ⟨by decide, by decide, claim_C7 [1, 2, 3] 48000 16000 (by decide) (by decide)⟩

/-- Claim C8, counterexample: at 2^31 samples the declared data subchunk
size field wraps modulo 2^32 (it stores 0) and no longer equals twice the
sample count, so the claim fails for that sample count. -/
theorem claim_C8_counterexample :
    wavDataSizeField (encodeWAV (List.replicate 2147483648 (0 : ℤ)) 8000) ≠
      2 * (List.replicate 2147483648 (0 : ℤ)).length := by
  rw [wavDataSizeField_encodeWAV]
  simp only [List.length_replicate]
  omega

/-- Claim C8, amended: whenever 36 plus twice the sample count fits in 32
bits, the WAV output is exactly 44 plus twice the sample count bytes long
and the declared RIFF and data sizes equal 36 plus twice the sample count
and twice the sample count respectively; beyond that bound the two size
fields hold the values reduced modulo 2^32.  The output is a pure function
of the samples and rate. -/
theorem claim_C8_amended (s : List ℤ) (r : ℕ) (h : 36 + 2 * s.length < 4294967296) :
    (encodeWAV s r).length = 44 + 2 * s.length ∧
    wavRiffSizeField (encodeWAV s r) = 36 + 2 * s.length ∧
    wavDataSizeField (encodeWAV s r) = 2 * s.length := by
  refine ⟨encodeWAV_length s r, ?_, ?_⟩
  · rw [wavRiffSizeField_encodeWAV]
    omega
  · rw [wavDataSizeField_encodeWAV]
    omega

/-- Claim C8, witness: a two-sample buffer at 24000 Hz has a 48-byte
container with matching declared sizes. -/
theorem claim_C8_amended_witness :
    36 + 2 * ([5, -3] : List ℤ).length < 4294967296 ∧
    ((encodeWAV [5, -3] 24000).length = 44 + 2 * ([5, -3] : List ℤ).length ∧
     wavRiffSizeField (encodeWAV [5, -3] 24000) = 36 + 2 * ([5, -3] : List ℤ).length ∧
     wavDataSizeField (encodeWAV [5, -3] 24000) = 2 * ([5, -3] : List ℤ).length) :=
  ⟨by decide, claim_C8_amended [5, -3] 24000 (by decide)⟩

/-- Claim C9: for a requested rate strictly above the source rate,
`downsampleBuffer` returns its input unchanged and signals the
configuration warning, without failing (it is a total function). -/
theorem claim_C9 (buffer : List ℤ) (srcR outR : ℚ) (h : srcR < outR) :
    downsampleBuffer buffer srcR outR = ⟨buffer, true⟩ := by
  unfold downsampleBuffer
  rw [if_neg (ne_of_gt h), if_pos h]

/-- Claim C9, witness: upsampling 16000 to 48000 returns the input and
warns. -/
theorem claim_C9_witness :
    (16000 : ℚ) < 48000 ∧ downsampleBuffer [1, 2, 3] 16000 48000 = ⟨[1, 2, 3], true⟩ :=
  ⟨by decide, claim_C9 [1, 2, 3] 16000 48000 (by decide)⟩

/-- Claim C10: for any input buffer and rates with 0 below the requested
rate below the source rate, every block read by the averaging loop starts
inside the input, block starts are strictly increasing, and every block
contains at least one sample — the divisor is never zero and no index is
out of bounds, so the function is total on this domain. -/
theorem claim_C10 (buffer : List ℤ) (srcR outR : ℚ)
    (h0 : 0 < outR) (h1 : outR < srcR) :
    (downsampleBuffer buffer srcR outR).result.length =
      (jsRound ((buffer.length : ℚ) / (srcR / outR))).toNat ∧
    ∀ i < (jsRound ((buffer.length : ℚ) / (srcR / outR))).toNat,
      dsOffset (srcR / outR) i < buffer.length ∧
      dsOffset (srcR / outR) i < dsOffset (srcR / outR) (i + 1) ∧
      0 < min (dsOffset (srcR / outR) (i + 1)) buffer.length - dsOffset (srcR / outR) i := by
  have hr : 1 < srcR / outR := (one_lt_div h0).mpr h1
  constructor
  · have := downsample_result_length buffer srcR outR h0 h1
    omega
  · intro i hi
    have hb := dsOffset_bounds buffer.length (srcR / outR) hr i hi
    have hcast : (((i : ℕ) + 1 : ℕ) : ℚ) = (i : ℚ) + 1 := by push_cast; ring
    unfold dsOffset
    rw [hcast]
    refine ⟨?_, ?_, ?_⟩ <;> omega

/-- Claim C10, witness: a 4-sample buffer from 48000 to 16000 produces one
block, starting at offset 0 with three in-bounds samples. -/
theorem claim_C10_witness :
    (0 : ℚ) < 16000 ∧ (16000 : ℚ) < 48000 ∧
    ((downsampleBuffer [1, 1, 1, 1] 48000 16000).result.length =
        (jsRound ((([1, 1, 1, 1] : List ℤ).length : ℚ) / (48000 / 16000))).toNat ∧
      ∀ i < (jsRound ((([1, 1, 1, 1] : List ℤ).length : ℚ) / (48000 / 16000))).toNat,
        dsOffset (48000 / 16000) i < ([1, 1, 1, 1] : List ℤ).length ∧
        dsOffset (48000 / 16000) i < dsOffset (48000 / 16000) (i + 1) ∧
        0 < min (dsOffset (48000 / 16000) (i + 1)) ([1, 1, 1, 1] : List ℤ).length -
            dsOffset (48000 / 16000) i) :=
  ⟨by decide, by decide, claim_C10 [1, 1, 1, 1] 48000 16000 (by decide) (by decide)⟩
